import Mathlib

/-!
Verification of the incremental PPTX-to-PNG export core (pptx_to_png.py):
the freshness check (needs_conversion), the PNG timestamp metadata helpers
(add_timestamp_to_png / get_timestamp_from_png) and the geometry resolution
inside export_slides_as_png.

Modelling conventions of the shallow embedding:
* Timestamps are rationals.  Python prints a float with str and re-reads it
  with float, and float(str(t)) = t for every float t; a metadata text value
  is therefore modelled as either the exact serialization of a number
  (MetaVal.numStr q, a string that is nonempty and parses back to q) or as
  arbitrary raw text (MetaVal.rawStr s).
* A PNG file is its pixel payload plus the optional SourcePPTXTimestamp
  text field; the filesystem maps paths (strings) to optional PNG files.
* Printing is modelled as appending to a log inside the state St, so that
  read-only-ness of the freshness check is a provable statement.
* Python int() applied to a nonnegative value is the floor; on a negative
  value it truncates toward zero (pyInt below).
* Python truthiness of an optional int (None and 0 are falsy) is pyTruthy.
-/

namespace PptxToPng

/-- A text value stored under a PNG metadata key: either the exact decimal
serialization of a number (as produced by str on a Python float, always a
nonempty string that float parses back to the same value), or raw text. -/
inductive MetaVal where
  | numStr (q : ℚ)
  | rawStr (s : String)
deriving DecidableEq

/-- Value of a decimal digit string, most significant first. -/
def digitsToNat (cs : List Char) : ℕ :=
  cs.foldl (fun a c => a * 10 + (c.toNat - 48)) 0

/-- Model of the Python float() conversion on ordinary decimal literals:
an optional sign, then digits with at most one decimal point (not both
parts empty); anything else raises ValueError, modelled as none. -/
def pyFloat (s : String) : Option ℚ :=
  let cs := s.toList
  let signedBody : ℚ × List Char :=
    match cs with
    | '-' :: rest => (-1, rest)
    | '+' :: rest => (1, rest)
    | rest => (1, rest)
  let sgn := signedBody.1
  let body := signedBody.2
  let intPart := body.takeWhile (fun c => c.isDigit)
  let rest := body.dropWhile (fun c => c.isDigit)
  match rest with
  | [] =>
    if intPart.isEmpty then none
    else some (sgn * (digitsToNat intPart : ℚ))
  | '.' :: fracRest =>
    let fracPart := fracRest.takeWhile (fun c => c.isDigit)
    let tail := fracRest.dropWhile (fun c => c.isDigit)
    if !tail.isEmpty then none
    else if intPart.isEmpty && fracPart.isEmpty then none
    else some (sgn * ((digitsToNat intPart : ℚ) +
      (digitsToNat fracPart : ℚ) / (10 ^ fracPart.length)))
  | _ => none

/-- Python truthiness of the retrieved metadata string: the empty string is
falsy.  A numeric serialization is never empty. -/
def MetaVal.isEmptyStr : MetaVal → Bool
  | .numStr _ => false
  | .rawStr s => s.isEmpty

/-- Applying float() to the stored text: a numeric serialization parses back
to its value (the Python float(str(t)) = t guarantee); raw text goes through
the float grammar and may fail (ValueError, modelled as none). -/
def MetaVal.parseFloat : MetaVal → Option ℚ
  | .numStr q => some q
  | .rawStr s => pyFloat s

/-- A PNG file on disk: its pixel payload and the optional
SourcePPTXTimestamp text field of its metadata. -/
structure PngFile where
  pixelData : ℕ
  tsField : Option MetaVal
deriving DecidableEq

/-- The filesystem: a map from paths to PNG files (none = no file). -/
def FS := String → Option PngFile

/-- Program state: the filesystem plus the diagnostic messages printed so
far. -/
structure St where
  fs : FS
  log : List String

/-- Printing a diagnostic message. -/
def St.push (st : St) (m : String) : St :=
  { st with log := st.log ++ [m] }

/-- Left zero-padding to two digits, the Python format i:02. -/
def pad2 (i : ℕ) : String :=
  if i < 10 then "0" ++ toString i else toString i

/-- The naming rule for slide i of a document with the given stem:
stem-slide-NN.png. -/
def outputName (stem : String) (i : ℕ) : String :=
  stem ++ "-slide-" ++ pad2 i ++ ".png"

/-- Pure value of get_timestamp_from_png on an existing PNG file:
info.get returns the field or the empty string; an empty (falsy) string
gives 0.0, otherwise float() is applied and a ValueError is caught and
turned into 0.0. -/
def getTimestampPng (png : PngFile) : ℚ :=
  match png.tsField with
  | none => 0
  | some v => if v.isEmptyStr then 0 else (v.parseFloat).getD 0

/-- get_timestamp_from_png as a function of the filesystem: opening a
missing file raises IOError, which is caught and turned into 0.0. -/
def get_timestamp_from_png (fs : FS) (path : String) : ℚ :=
  match fs path with
  | none => 0
  | some png => getTimestampPng png

/-- get_timestamp_from_png with its diagnostic prints: the error handler
prints when Image.open fails or when float() raises ValueError. -/
def getTimestampRun (st : St) (path : String) : ℚ × St :=
  match st.fs path with
  | none => (0, st.push ("Error reading metadata from PNG: " ++ path))
  | some png =>
    match png.tsField with
    | none => (0, st)
    | some v =>
      if v.isEmptyStr then (0, st)
      else
        match v.parseFloat with
        | some q => (q, st)
        | none => (0, st.push ("Error reading metadata from PNG: " ++ path))

/-- add_timestamp_to_png: opens the PNG (IOError on a missing file is
caught and printed), rewrites it with the same pixels and a fresh metadata
dictionary holding only SourcePPTXTimestamp = str(timestamp). -/
def addTimestampRun (st : St) (path : String) (t : ℚ) : St :=
  match st.fs path with
  | none => st.push ("Error writing metadata to PNG: " ++ path)
  | some png =>
    let fs1 : FS := fun p =>
      if p = path then some { pixelData := png.pixelData, tsField := some (.numStr t) }
      else st.fs p
    St.push { fs := fs1, log := st.log } ("Timestamp added to PNG: " ++ path)

/-- One slide of the needs_conversion loop body, as a pure predicate on the
filesystem: the slide needs (re)conversion when its output file is missing
or its embedded timestamp is strictly below the source timestamp. -/
def slideStale (srcTs : ℚ) (stem : String) (fs : FS) (i : ℕ) : Bool :=
  match fs (outputName stem i) with
  | none => true
  | some png => decide (getTimestampPng png < srcTs)

/-- The for-loop of needs_conversion over the remaining ordinals, with its
early returns and diagnostic prints. -/
def ncLoop (srcTs : ℚ) (stem : String) : List ℕ → St → Bool × St
  | [], st => (false, st.push "All PNG files are up-to-date.")
  | i :: rest, st =>
    let path := outputName stem i
    if (st.fs path).isNone then
      (true, st.push ("PNG file missing for slide: " ++ path))
    else
      let r := getTimestampRun st path
      if r.1 < srcTs then (true, r.2.push ("PNG file outdated for slide: " ++ path))
      else ncLoop srcTs stem rest r.2

/-- needs_conversion: srcTs is os.path.getmtime(source); the loop runs over
the ordinals 1..numSlides. -/
def needsConversionRun (srcTs : ℚ) (stem : String) (numSlides : ℕ) (st : St) : Bool × St :=
  ncLoop srcTs stem (List.range' 1 numSlides) st

/-- The boolean decision of needs_conversion. -/
def needs_conversion (srcTs : ℚ) (stem : String) (numSlides : ℕ) (fs : FS) : Bool :=
  (needsConversionRun srcTs stem numSlides { fs := fs, log := [] }).1

/-- Python int(): truncation toward zero (floor on nonnegative values). -/
def pyInt (q : ℚ) : ℤ :=
  if 0 ≤ q then ⌊q⌋ else -⌊-q⌋

/-- Python truthiness of an optional integer argument: None and 0 are both
falsy. -/
def pyTruthy : Option ℤ → Bool
  | none => false
  | some n => n != 0

/-- The geometry resolution of export_slides_as_png (the
if width and height / elif width / elif height / else chain), where ar is
the slide aspect ratio slide_height / slide_width. -/
def resolveGeometry (width height : Option ℤ) (ar : ℚ) : ℤ × ℤ :=
  if pyTruthy width && pyTruthy height then
    (width.getD 0, height.getD 0)
  else if pyTruthy width then
    let w := width.getD 0
    (w, pyInt ((w : ℚ) * ar))
  else if pyTruthy height then
    let h := height.getD 0
    (pyInt ((h : ℚ) / ar), h)
  else
    (1280, pyInt ((1280 : ℚ) * ar))

/-- What the export run did: whether the PowerPoint COM session was created
and which (ordinal, width, height) renderer calls were issued. -/
structure ExportTrace where
  sessionCreated : Bool
  rendered : List (ℕ × ℤ × ℤ)
deriving DecidableEq

/-- slide.Export writes a fresh PNG at the path (pixel payload of the
render, no SourcePPTXTimestamp field yet). -/
def renderSlide (st : St) (path : String) : St :=
  { st with fs := fun p =>
      if p = path then some { pixelData := 0, tsField := none } else st.fs p }

/-- The per-slide export loop: resolve geometry, render, embed the source
timestamp, optionally log the created file. -/
def exportLoop (srcTs : ℚ) (stem : String) (w h : Option ℤ) (ar : ℚ) (logFlag : Bool) :
    List ℕ → St → ExportTrace → ExportTrace × St
  | [], st, tr => (tr, st)
  | i :: rest, st, tr =>
    let dims := resolveGeometry w h ar
    let path := outputName stem i
    let st1 := renderSlide (st.push ("Exporting slide as PNG: " ++ path)) path
    let st2 := addTimestampRun st1 path srcTs
    let st3 := if logFlag then st2.push ("Created PNG: " ++ path) else st2
    exportLoop srcTs stem w h ar logFlag rest st3
      { tr with rendered := tr.rendered ++ [(i, dims.1, dims.2)] }

/-- export_slides_as_png: first the freshness check; when nothing is stale
it returns before creating the PowerPoint session, otherwise it opens the
session and exports every slide, embedding srcTs into each output. -/
def export_slides_as_png (srcTs : ℚ) (stem : String) (numSlides : ℕ)
    (w h : Option ℤ) (ar : ℚ) (logFlag : Bool) (st : St) : ExportTrace × St :=
  let r := needsConversionRun srcTs stem numSlides st
  if !r.1 then
    ({ sessionCreated := false, rendered := [] },
      r.2.push "No slides need conversion. Exiting.")
  else
    exportLoop srcTs stem w h ar logFlag (List.range' 1 numSlides)
      (r.2.push "Starting slide export process...")
      { sessionCreated := true, rendered := [] }

/-! Helper lemmas shared by the claim theorems. -/

theorem St.push_fs (st : St) (m : String) : (st.push m).fs = st.fs := rfl

theorem getTimestampPng_numStr (d : ℕ) (t : ℚ) :
    getTimestampPng { pixelData := d, tsField := some (.numStr t) } = t := rfl

theorem getTimestampRun_snd_fs (st : St) (path : String) :
    ((getTimestampRun st path).2).fs = st.fs := by
  cases h : st.fs path with
  | none => simp [getTimestampRun, h, St.push_fs]
  | some png =>
    cases hf : png.tsField with
    | none => simp [getTimestampRun, h, hf]
    | some v =>
      by_cases he : v.isEmptyStr <;>
        cases hp : v.parseFloat <;>
          simp [getTimestampRun, h, hf, he, hp, St.push_fs]

theorem getTimestampRun_fst_of_some (st : St) (path : String) (png : PngFile)
    (h : st.fs path = some png) :
    (getTimestampRun st path).1 = getTimestampPng png := by
  cases hf : png.tsField with
  | none => simp [getTimestampRun, getTimestampPng, h, hf]
  | some v =>
    by_cases he : v.isEmptyStr <;>
      cases hp : v.parseFloat <;>
        simp [getTimestampRun, getTimestampPng, h, hf, he, hp]

theorem pyInt_eq_floor (q : ℚ) (h : 0 ≤ q) : pyInt q = ⌊q⌋ := if_pos h

theorem pyInt_eval (q : ℚ) (z : ℤ) (hz : 0 ≤ z) (h1 : (z : ℚ) ≤ q) (h2 : q < z + 1) :
    pyInt q = z := by
  have hq : 0 ≤ q := le_trans (by exact_mod_cast hz) h1
  rw [pyInt_eq_floor q hq]
  exact Int.floor_eq_iff.mpr ⟨h1, h2⟩

theorem pyInt_nonpos (q : ℚ) (h : q ≤ 0) : pyInt q ≤ 0 := by
  unfold pyInt
  by_cases h0 : 0 ≤ q
  · rw [if_pos h0]
    have : q = 0 := le_antisymm h h0
    simp [this]
  · rw [if_neg h0]
    have : (0 : ℚ) ≤ -q := by linarith
    have := Int.floor_nonneg.mpr this
    omega

theorem resolveGeometry_both (w h : ℤ) (ar : ℚ) (hw : w ≠ 0) (hh : h ≠ 0) :
    resolveGeometry (some w) (some h) ar = (w, h) := by
  simp [resolveGeometry, pyTruthy, hw, hh]

theorem resolveGeometry_width_only (w : ℤ) (ar : ℚ) (hw : w ≠ 0) :
    resolveGeometry (some w) none ar = (w, pyInt ((w : ℚ) * ar)) := by
  simp [resolveGeometry, pyTruthy, hw]

theorem resolveGeometry_height_only (h : ℤ) (ar : ℚ) (hh : h ≠ 0) :
    resolveGeometry none (some h) ar = (pyInt ((h : ℚ) / ar), h) := by
  simp [resolveGeometry, pyTruthy, hh]

theorem resolveGeometry_neither (ar : ℚ) :
    resolveGeometry none none ar = (1280, pyInt ((1280 : ℚ) * ar)) := by
  simp [resolveGeometry, pyTruthy]

theorem ncLoop_snd_fs (srcTs : ℚ) (stem : String) (l : List ℕ) :
    ∀ st : St, ((ncLoop srcTs stem l st).2).fs = st.fs := by
  induction l with
  | nil => intro st; rfl
  | cons i rest ih =>
    intro st
    unfold ncLoop
    by_cases hex : (st.fs (outputName stem i)).isNone
    · simp [hex, St.push_fs]
    · by_cases hlt : (getTimestampRun st (outputName stem i)).1 < srcTs
      · simp [hex, hlt, St.push_fs, getTimestampRun_snd_fs]
      · simp only [hex, hlt, Bool.false_eq_true, if_false, if_neg, not_false_eq_true]
        rw [ih]
        exact getTimestampRun_snd_fs st _

theorem ncLoop_fst_any (srcTs : ℚ) (stem : String) (l : List ℕ) :
    ∀ st : St, (ncLoop srcTs stem l st).1 = l.any (slideStale srcTs stem st.fs) := by
  induction l with
  | nil => intro st; rfl
  | cons i rest ih =>
    intro st
    unfold ncLoop
    cases hfs : st.fs (outputName stem i) with
    | none =>
      have hex : (st.fs (outputName stem i)).isNone = true := by simp [hfs]
      simp [hex, List.any_cons, slideStale, hfs]
    | some png =>
      have hex : ¬ (st.fs (outputName stem i)).isNone = true := by simp [hfs]
      have hval := getTimestampRun_fst_of_some st (outputName stem i) png hfs
      have hsnd := getTimestampRun_snd_fs st (outputName stem i)
      by_cases hlt : getTimestampPng png < srcTs
      · simp [hex, hval, hlt, List.any_cons, slideStale, hfs]
      · simp [ncLoop, hfs, hval, hlt, List.any_cons, slideStale, ih, hsnd]

theorem slideStale_eq_true_iff (srcTs : ℚ) (stem : String) (fs : FS) (i : ℕ) :
    slideStale srcTs stem fs i = true ↔
      (fs (outputName stem i) = none ∨
        get_timestamp_from_png fs (outputName stem i) < srcTs) := by
  cases hfs : fs (outputName stem i) with
  | none => simp [slideStale, get_timestamp_from_png, hfs]
  | some png => simp [slideStale, get_timestamp_from_png, hfs]

theorem exportStep_fs (st : St) (path : String) (t : ℚ) (p : String) :
    (addTimestampRun (renderSlide st path) path t).fs p =
      if p = path then some { pixelData := 0, tsField := some (.numStr t) }
      else st.fs p := by
  by_cases hp : p = path <;>
    simp [addTimestampRun, renderSlide, St.push_fs, hp]

theorem exportLoop_fs_keep (srcTs : ℚ) (stem : String) (w h : Option ℤ) (ar : ℚ)
    (lg : Bool) (l : List ℕ) :
    ∀ (st : St) (tr : ExportTrace) (q : String),
      st.fs q = some { pixelData := 0, tsField := some (.numStr srcTs) } →
      ((exportLoop srcTs stem w h ar lg l st tr).2).fs q =
        some { pixelData := 0, tsField := some (.numStr srcTs) } := by
  induction l with
  | nil => intro st tr q hq; exact hq
  | cons i rest ih =>
    intro st tr q hq
    simp only [exportLoop]
    apply ih
    have hstep := exportStep_fs
      (St.push st ("Exporting slide as PNG: " ++ outputName stem i)) (outputName stem i) srcTs q
    rw [St.push_fs] at hstep
    by_cases hqp : q = outputName stem i
    · subst hqp
      cases lg <;> simp [St.push_fs, hstep, hq]
    · cases lg <;> simp [St.push_fs, hstep, hqp, hq]

theorem exportLoop_fs_mem (srcTs : ℚ) (stem : String) (w h : Option ℤ) (ar : ℚ)
    (lg : Bool) (l : List ℕ) :
    ∀ (st : St) (tr : ExportTrace) (i : ℕ), i ∈ l →
      ((exportLoop srcTs stem w h ar lg l st tr).2).fs (outputName stem i) =
        some { pixelData := 0, tsField := some (.numStr srcTs) } := by
  induction l with
  | nil => intro st tr i hi; cases hi
  | cons j rest ih =>
    intro st tr i hi
    simp only [exportLoop]
    rcases List.mem_cons.mp hi with hij | hr
    · subst hij
      apply exportLoop_fs_keep
      have hstep := exportStep_fs
        (St.push st ("Exporting slide as PNG: " ++ outputName stem i)) (outputName stem i) srcTs
        (outputName stem i)
      cases lg <;> simp [St.push_fs, hstep]
    · exact ih _ _ i hr

theorem needsConversionRun_fst_of_all_stamped (srcTs : ℚ) (stem : String) (n : ℕ)
    (st : St)
    (hall : ∀ i, 1 ≤ i → i ≤ n →
      st.fs (outputName stem i) = some { pixelData := 0, tsField := some (.numStr srcTs) }) :
    (needsConversionRun srcTs stem n st).1 = false := by
  unfold needsConversionRun
  rw [ncLoop_fst_any]
  rw [List.any_eq_false]
  intro i hi
  have hmem := List.mem_range'_1.mp hi
  have := hall i hmem.1 (by omega)
  simp [slideStale, this, getTimestampPng, MetaVal.isEmptyStr, MetaVal.parseFloat]

theorem pyInt_zero : pyInt 0 = 0 := by
  rw [pyInt_eq_floor 0 le_rfl]
  exact Int.floor_zero

/-! Claim theorems. -/

/-- C2 counterexample: with only width given, width 1 and aspect ratio 9/5,
the code computes int(1 * (9/5)) = 1 while rounding 9/5 to the nearest
integer gives 2, so the output height is not round(width * aspectRatio). -/
theorem geometry_not_nearest_rounding :
    (resolveGeometry (some 1) none (9/5)).2 ≠ round (((1 : ℤ) : ℚ) * (9/5)) := by
  rw [resolveGeometry_width_only 1 (9/5) (by decide)]
  have h1 : pyInt (((1 : ℤ) : ℚ) * (9/5)) = 1 := by
    apply pyInt_eval _ 1 (by norm_num) (by norm_num) (by norm_num)
  have h2 : round (((1 : ℤ) : ℚ) * (9/5)) = 2 := by
    norm_num [round_eq]
  simp only [h1, h2]
  decide

/-- C2 corrected: the geometry resolution uses the truncating int()
conversion, which on these positive products is the floor, not rounding to
the nearest integer: only width gives outHeight = floor(width * ar), only
height gives outWidth = floor(height / ar), and neither given gives
outWidth = 1280 with outHeight = floor(1280 * ar). -/
theorem geometry_resolution_floor (w h : ℤ) (ar : ℚ)
    (hw : 0 < w) (hh : 0 < h) (har : 0 < ar) :
    resolveGeometry (some w) none ar = (w, ⌊(w : ℚ) * ar⌋) ∧
    resolveGeometry none (some h) ar = (⌊(h : ℚ) / ar⌋, h) ∧
    resolveGeometry none none ar = (1280, ⌊(1280 : ℚ) * ar⌋) := by
  have hwq : (0 : ℚ) ≤ (w : ℚ) := by exact_mod_cast hw.le
  have hhq : (0 : ℚ) ≤ (h : ℚ) := by exact_mod_cast hh.le
  refine ⟨?_, ?_, ?_⟩
  · rw [resolveGeometry_width_only w ar (by omega),
      pyInt_eq_floor _ (mul_nonneg hwq har.le)]
  · rw [resolveGeometry_height_only h ar (by omega),
      pyInt_eq_floor _ (div_nonneg hhq har.le)]
  · rw [resolveGeometry_neither ar,
      pyInt_eq_floor _ (mul_nonneg (by norm_num) har.le)]

/-- Witness for the corrected C2 theorem at width 3, height 4, ratio 2. -/
theorem geometry_resolution_floor_witness :
    (0 : ℤ) < 3 ∧ (0 : ℤ) < 4 ∧ (0 : ℚ) < 2 ∧
    (resolveGeometry (some 3) none 2 = (3, ⌊((3 : ℤ) : ℚ) * 2⌋) ∧
      resolveGeometry none (some 4) 2 = (⌊((4 : ℤ) : ℚ) / 2⌋, 4) ∧
      resolveGeometry none none 2 = (1280, ⌊(1280 : ℚ) * 2⌋)) :=
  ⟨by norm_num, by norm_num, by norm_num,
    geometry_resolution_floor 3 4 2 (by norm_num) (by norm_num) (by norm_num)⟩

/-- C5: geometry precedence: both dimensions given are returned unchanged
for any aspect ratio (no correction), and the four concrete equalities of
the spec hold. -/
theorem geometry_precedence (w h : ℤ) (ar ar2 : ℚ) (hw : 0 < w) (hh : 0 < h) :
    resolveGeometry (some w) (some h) ar = (w, h) ∧
    resolveGeometry (some 200) (some 100) ar2 = (200, 100) ∧
    resolveGeometry (some 200) none 2 = (200, 400) ∧
    resolveGeometry none (some 400) 2 = (200, 400) ∧
    resolveGeometry none none (1/2) = (1280, 640) := by
  refine ⟨resolveGeometry_both w h ar (by omega) (by omega),
    resolveGeometry_both 200 100 ar2 (by norm_num) (by norm_num), ?_, ?_, ?_⟩
  · rw [resolveGeometry_width_only 200 2 (by norm_num)]
    have : pyInt (((200 : ℤ) : ℚ) * 2) = 400 := by
      apply pyInt_eval _ 400 (by norm_num) (by norm_num) (by norm_num)
    rw [this]
  · rw [resolveGeometry_height_only 400 2 (by norm_num)]
    have : pyInt (((400 : ℤ) : ℚ) / 2) = 200 := by
      apply pyInt_eval _ 200 (by norm_num) (by norm_num) (by norm_num)
    rw [this]
  · rw [resolveGeometry_neither (1/2)]
    have : pyInt ((1280 : ℚ) * (1/2)) = 640 := by
      apply pyInt_eval _ 640 (by norm_num) (by norm_num) (by norm_num)
    rw [this]

/-- Witness for C5 at width 5, height 7 and two concrete ratios. -/
theorem geometry_precedence_witness :
    (0 : ℤ) < 5 ∧ (0 : ℤ) < 7 ∧
    (resolveGeometry (some 5) (some 7) 3 = (5, 7) ∧
      resolveGeometry (some 200) (some 100) 9 = (200, 100) ∧
      resolveGeometry (some 200) none 2 = (200, 400) ∧
      resolveGeometry none (some 400) 2 = (200, 400) ∧
      resolveGeometry none none (1/2) = (1280, 640)) :=
  ⟨by norm_num, by norm_num,
    geometry_precedence 5 7 3 9 (by norm_num) (by norm_num)⟩

/-- C10: a zero width or height is falsy in Python, so it selects the same
branch as an absent argument; in particular width 0 alone gives the default
(1280, int(1280 * ar)) and width 200 with height 0 gives
(200, int(200 * ar)), not (200, 0). -/
theorem zero_size_treated_as_absent (w h : Option ℤ) (ar : ℚ) :
    resolveGeometry (some 0) h ar = resolveGeometry none h ar ∧
    resolveGeometry w (some 0) ar = resolveGeometry w none ar ∧
    resolveGeometry (some 0) none ar = (1280, pyInt ((1280 : ℚ) * ar)) ∧
    resolveGeometry (some 200) (some 0) ar = (200, pyInt ((200 : ℚ) * ar)) := by
  refine ⟨?_, ?_, ?_, ?_⟩
  · simp [resolveGeometry, pyTruthy]
  · cases w with
    | none => simp [resolveGeometry, pyTruthy]
    | some n => simp [resolveGeometry, pyTruthy]
  · simp [resolveGeometry, pyTruthy]
  · simp only [resolveGeometry, pyTruthy]
    norm_num

/-- C1: needs_conversion is true iff some ordinal i in 1..N has its
expected output file missing or carries an embedded timestamp strictly
below the source timestamp; so one absent file forces true regardless of
the other N-1 files, and all files present with timestamp at least the
source timestamp give false. -/
theorem needs_conversion_iff_missing_or_outdated (srcTs : ℚ) (stem : String)
    (numSlides : ℕ) (fs : FS) :
    needs_conversion srcTs stem numSlides fs = true ↔
      ∃ i, 1 ≤ i ∧ i ≤ numSlides ∧
        (fs (outputName stem i) = none ∨
          get_timestamp_from_png fs (outputName stem i) < srcTs) := by
  unfold needs_conversion needsConversionRun
  rw [ncLoop_fst_any, List.any_eq_true]
  constructor
  · rintro ⟨i, hi, hstale⟩
    have hm := List.mem_range'_1.mp hi
    exact ⟨i, hm.1, by omega, (slideStale_eq_true_iff _ _ _ _).mp hstale⟩
  · rintro ⟨i, h1, h2, hdis⟩
    exact ⟨i, List.mem_range'_1.mpr ⟨h1, by omega⟩,
      (slideStale_eq_true_iff _ _ _ _).mpr hdis⟩

/-- C4: an artifact whose embedded timestamp field is absent, empty, or
text the float grammar rejects reads as 0.0 (the reader is a total
function, it never propagates an exception), and such an artifact is
judged stale against any strictly positive source timestamp. -/
theorem corrupt_metadata_reads_zero (png : PngFile) (srcTs : ℚ) (stem : String)
    (i : ℕ) (fs : FS)
    (hfld : png.tsField = none ∨ png.tsField = some (.rawStr "") ∨
      ∃ s, png.tsField = some (.rawStr s) ∧ pyFloat s = none)
    (hpos : 0 < srcTs)
    (hfs : fs (outputName stem i) = some png) :
    getTimestampPng png = 0 ∧
    get_timestamp_from_png fs (outputName stem i) = 0 ∧
    slideStale srcTs stem fs i = true := by
  have h0 : getTimestampPng png = 0 := by
    rcases hfld with hf | hf | ⟨s, hf, hparse⟩
    · simp [getTimestampPng, hf]
    · have hemp : ("" : String).isEmpty = true := by decide
      simp [getTimestampPng, hf, MetaVal.isEmptyStr, hemp]
    · by_cases he : s.isEmpty
      · simp [getTimestampPng, hf, MetaVal.isEmptyStr, he]
      · simp [getTimestampPng, hf, MetaVal.isEmptyStr, MetaVal.parseFloat, he, hparse]
  refine ⟨h0, ?_, ?_⟩
  · simp [get_timestamp_from_png, hfs, h0]
  · simp [slideStale, hfs, h0, hpos]

/-- Witness for C4: a field holding the text "corrupt" reads as 0 and is
stale against source timestamp 1. -/
theorem corrupt_metadata_reads_zero_witness :
    ((PngFile.mk 0 (some (.rawStr "corrupt"))).tsField = none ∨
      (PngFile.mk 0 (some (.rawStr "corrupt"))).tsField = some (.rawStr "") ∨
      ∃ s, (PngFile.mk 0 (some (.rawStr "corrupt"))).tsField = some (.rawStr s) ∧
        pyFloat s = none) ∧
    (0 : ℚ) < 1 ∧
    (fun _ : String => some (PngFile.mk 0 (some (.rawStr "corrupt"))))
        (outputName "deck" 1) = some (PngFile.mk 0 (some (.rawStr "corrupt"))) ∧
    (getTimestampPng (PngFile.mk 0 (some (.rawStr "corrupt"))) = 0 ∧
      get_timestamp_from_png
        (fun _ : String => some (PngFile.mk 0 (some (.rawStr "corrupt"))))
        (outputName "deck" 1) = 0 ∧
      slideStale 1 "deck"
        (fun _ : String => some (PngFile.mk 0 (some (.rawStr "corrupt")))) 1 = true) :=
  ⟨Or.inr (Or.inr ⟨"corrupt", rfl, by decide⟩), by norm_num, rfl,
    corrupt_metadata_reads_zero (PngFile.mk 0 (some (.rawStr "corrupt"))) 1 "deck" 1
      (fun _ => some (PngFile.mk 0 (some (.rawStr "corrupt"))))
      (Or.inr (Or.inr ⟨"corrupt", rfl, by decide⟩)) (by norm_num) rfl⟩

/-- C6: staleness is monotone in the source timestamp: an artifact embedded
with t1 is judged stale by needs_conversion against any source timestamp
t2 greater than t1. -/
theorem staleness_monotone (t1 t2 : ℚ) (stem : String) (n i d : ℕ) (fs : FS)
    (hlt : t1 < t2) (h1 : 1 ≤ i) (h2 : i ≤ n)
    (hfs : fs (outputName stem i) =
      some { pixelData := d, tsField := some (.numStr t1) }) :
    needs_conversion t2 stem n fs = true := by
  unfold needs_conversion needsConversionRun
  rw [ncLoop_fst_any, List.any_eq_true]
  refine ⟨i, List.mem_range'_1.mpr ⟨h1, by omega⟩, ?_⟩
  simp [slideStale, hfs, getTimestampPng_numStr, hlt]

/-- Witness for C6: an artifact embedded with 0 is stale against source
timestamp 1. -/
theorem staleness_monotone_witness :
    (0 : ℚ) < 1 ∧ 1 ≤ 1 ∧ 1 ≤ 1 ∧
    (fun _ : String => some { pixelData := 0, tsField := some (.numStr 0) : PngFile })
        (outputName "deck" 1) =
      some { pixelData := 0, tsField := some (.numStr 0) } ∧
    needs_conversion 1 "deck" 1
      (fun _ => some { pixelData := 0, tsField := some (.numStr 0) }) = true :=
  ⟨by norm_num, le_rfl, le_rfl, rfl,
    staleness_monotone 0 1 "deck" 1 1 0
      (fun _ => some { pixelData := 0, tsField := some (.numStr 0) })
      (by norm_num) le_rfl le_rfl rfl⟩

/-- C7: after add_timestamp_to_png succeeds on an existing PNG, the file
holds the serialized timestamp under SourcePPTXTimestamp with its pixel
data unchanged, and get_timestamp_from_png reads back exactly the stored
value. -/
theorem timestamp_roundtrip (st : St) (path : String) (t : ℚ) (png : PngFile)
    (hfs : st.fs path = some png) :
    (addTimestampRun st path t).fs path =
      some { pixelData := png.pixelData, tsField := some (.numStr t) } ∧
    get_timestamp_from_png (addTimestampRun st path t).fs path = t ∧
    (getTimestampRun (addTimestampRun st path t) path).1 = t := by
  have hset : (addTimestampRun st path t).fs path =
      some { pixelData := png.pixelData, tsField := some (.numStr t) } := by
    simp [addTimestampRun, hfs, St.push_fs]
  refine ⟨hset, ?_, ?_⟩
  · simp [get_timestamp_from_png, hset, getTimestampPng_numStr]
  · rw [getTimestampRun_fst_of_some _ _ _ hset]
    exact getTimestampPng_numStr png.pixelData t

/-- Witness for C7: embedding timestamp 5 into an existing file and
reading it back. -/
theorem timestamp_roundtrip_witness :
    (St.mk (fun _ => some (PngFile.mk 7 none)) []).fs "a.png" =
      some (PngFile.mk 7 none) ∧
    ((addTimestampRun (St.mk (fun _ => some (PngFile.mk 7 none)) []) "a.png" 5).fs "a.png" =
        some { pixelData := (PngFile.mk 7 none).pixelData, tsField := some (.numStr 5) } ∧
      get_timestamp_from_png
        (addTimestampRun (St.mk (fun _ => some (PngFile.mk 7 none)) []) "a.png" 5).fs
        "a.png" = 5 ∧
      (getTimestampRun
        (addTimestampRun (St.mk (fun _ => some (PngFile.mk 7 none)) []) "a.png" 5)
        "a.png").1 = 5) :=
  ⟨rfl, timestamp_roundtrip (St.mk (fun _ => some (PngFile.mk 7 none)) []) "a.png" 5
    (PngFile.mk 7 none) rfl⟩

/-- C9: the freshness check is read-only on the filesystem: the filesystem
component of the state after needs_conversion equals the one before; only
the diagnostic log may differ. -/
theorem needs_conversion_readonly_fs (srcTs : ℚ) (stem : String) (numSlides : ℕ)
    (st : St) :
    ((needsConversionRun srcTs stem numSlides st).2).fs = st.fs :=
  ncLoop_snd_fs srcTs stem (List.range' 1 numSlides) st

/-- C8 counterexample: no rejection of a degenerate aspect ratio exists in
the code: with aspect ratio 0 (a zero-height slide), no explicit size and
no existing outputs, the export opens the renderer session and issues a
render call with output height 0 instead of flagging an error first. -/
theorem degenerate_ar_reaches_renderer :
    (export_slides_as_png 1 "deck" 1 none none 0 false
        { fs := fun _ => none, log := [] }).1 =
      { sessionCreated := true, rendered := [(1, 1280, 0)] } := by
  have hnc : (needsConversionRun 1 "deck" 1
      { fs := fun _ => none, log := [] }).1 = true := by
    unfold needsConversionRun
    rw [ncLoop_fst_any, show List.range' 1 1 = [1] from rfl]
    simp [slideStale]
  have hd : resolveGeometry none none 0 = (1280, 0) := by
    rw [resolveGeometry_neither, mul_zero, pyInt_zero]
  simp [export_slides_as_png, exportLoop, hnc, hd, List.range']

/-- C8 corrected: the code never validates the aspect ratio: the geometry
resolution is invoked on a degenerate (zero or negative) ratio and, with no
explicit size, yields output height int(1280 * ar) which is zero or
negative, rather than an error being raised first. -/
theorem degenerate_ar_not_rejected (ar : ℚ) (h : ar ≤ 0) :
    resolveGeometry none none ar = (1280, pyInt ((1280 : ℚ) * ar)) ∧
    (resolveGeometry none none ar).2 ≤ 0 := by
  refine ⟨resolveGeometry_neither ar, ?_⟩
  rw [resolveGeometry_neither]
  exact pyInt_nonpos _ (by nlinarith)

/-- Witness for the corrected C8 theorem at aspect ratio -3. -/
theorem degenerate_ar_not_rejected_witness :
    (-3 : ℚ) ≤ 0 ∧
    (resolveGeometry none none (-3) = (1280, pyInt ((1280 : ℚ) * (-3))) ∧
      (resolveGeometry none none (-3)).2 ≤ 0) :=
  ⟨by norm_num, degenerate_ar_not_rejected (-3) (by norm_num)⟩

/-- C3: idempotence: re-running the export with the source unchanged (same
modification timestamp) does no work the second time: the second freshness
check returns false, and the second run neither creates the renderer
session nor issues any render call. -/
theorem second_export_run_is_noop (srcTs : ℚ) (stem : String) (n : ℕ)
    (w h : Option ℤ) (ar : ℚ) (lg : Bool) (st : St) :
    (needsConversionRun srcTs stem n
        (export_slides_as_png srcTs stem n w h ar lg st).2).1 = false ∧
    (export_slides_as_png srcTs stem n w h ar lg
        (export_slides_as_png srcTs stem n w h ar lg st).2).1 =
      { sessionCreated := false, rendered := [] } := by
  have key : (needsConversionRun srcTs stem n
      (export_slides_as_png srcTs stem n w h ar lg st).2).1 = false := by
    cases hr : (needsConversionRun srcTs stem n st).1 with
    | false =>
      have hfs : ((export_slides_as_png srcTs stem n w h ar lg st).2).fs = st.fs := by
        have hr' : (ncLoop srcTs stem (List.range' 1 n) st).1 = false := hr
        simp [export_slides_as_png, needsConversionRun, hr', St.push_fs, ncLoop_snd_fs]
      unfold needsConversionRun
      rw [ncLoop_fst_any, hfs, ← ncLoop_fst_any]
      exact hr
    | true =>
      apply needsConversionRun_fst_of_all_stamped
      intro i h1 h2
      have hexp : (export_slides_as_png srcTs stem n w h ar lg st).2 =
          (exportLoop srcTs stem w h ar lg (List.range' 1 n)
            (((needsConversionRun srcTs stem n st).2).push
              "Starting slide export process...")
            { sessionCreated := true, rendered := [] }).2 := by
        simp [export_slides_as_png, hr]
      rw [hexp]
      exact exportLoop_fs_mem srcTs stem w h ar lg (List.range' 1 n) _ _ i
        (List.mem_range'_1.mpr ⟨h1, by omega⟩)
  refine ⟨key, ?_⟩
  generalize hE : (export_slides_as_png srcTs stem n w h ar lg st).2 = E at key ⊢
  simp [export_slides_as_png, key]

end PptxToPng
